import Mathlib

/-!
Verification of the StellarSpend access-control contract
(`contracts/access-control/src/lib.rs`).

The contract is a Soroban smart contract.  We embed it shallowly:

* `Principal` stands for `soroban_sdk::Address` (opaque, only equality is
  used), modelled as `Nat`.
* A Soroban `Map<Role, bool>` is a partial map from the four roles to
  booleans; since `Role` has exactly four constructors we represent it as a
  structure with one `Option Bool` field per role (`RoleSet`).
* The instance storage holds three logical records
  (`DataKey::Admin`, `DataKey::UserRoles(addr)`,
  `DataKey::TotalRoleAssignments`); we represent them as a record
  `ContractState` with an `Option Principal`, an association list from
  principals to `RoleSet`s (a key is present exactly when the storage has a
  `UserRoles` entry for it), and an `Option Nat` for the stored `u64`
  counter.
* `panic_with_error!` / `panic!` / `expect` abort the call with nothing
  committed, so every operation is a function
  `ContractState → Except AccessControlError ContractState`; an `error`
  result leaves the state untouched by construction, matching Soroban's
  roll-back-on-panic semantics.
* `require_auth` belongs to the external authenticator collaborator (it
  proves identity, not authorization) and is dropped: every modelled call is
  one whose caller successfully authenticated as themselves.
* Event publication is observational only and is not modelled.
* The `u64` counter arithmetic is carried out modulo `2^64`.
-/

/-- Addresses (`soroban_sdk::Address`): opaque identifiers compared only for
equality. -/
abbrev Principal : Type := Nat

instance {ε α : Type} [DecidableEq ε] [DecidableEq α] : DecidableEq (Except ε α) := fun x y =>
  match x, y with
  | .ok a, .ok b => if h : a = b then .isTrue (by rw [h]) else .isFalse (by simp [h])
  | .error a, .error b => if h : a = b then .isTrue (by rw [h]) else .isFalse (by simp [h])
  | .ok _, .error _ => .isFalse (by simp)
  | .error _, .ok _ => .isFalse (by simp)

/-- `Role` from `lib.rs`: the closed enumeration of roles. -/
inductive Role where
  | Admin
  | User
  | Operator
  | Auditor
deriving DecidableEq, Repr

/-- `AccessControlError` from `lib.rs`, together with the two panic
conditions that are raised with a message rather than a contract error code
(`panic!("Contract already initialized")` in `initialize` and
`expect("Contract not initialized")` in `get_admin` / `require_admin`).
`NotInitialized` models the latter. -/
inductive AccessControlError where
  | NotInitialized
  | Unauthorized
  | InvalidRole
  | RoleAlreadyAssigned
  | RoleNotAssigned
  | CannotRevokeSelfAdmin
  | AlreadyInitialized
deriving DecidableEq, Repr

/-- A Soroban `Map<Role, bool>`: each of the four roles is either absent or
mapped to a boolean. -/
structure RoleSet where
  adminFlag : Option Bool
  userFlag : Option Bool
  operatorFlag : Option Bool
  auditorFlag : Option Bool
deriving DecidableEq, Repr

namespace RoleSet

/-- `Map::new(&env)`: the empty role map. -/
def empty : RoleSet := ⟨none, none, none, none⟩

/-- `roles.get(role)`. -/
def get (rs : RoleSet) : Role → Option Bool
  | .Admin => rs.adminFlag
  | .User => rs.userFlag
  | .Operator => rs.operatorFlag
  | .Auditor => rs.auditorFlag

/-- `roles.set(role, b)`. -/
def set (rs : RoleSet) : Role → Bool → RoleSet
  | .Admin, b => { rs with adminFlag := some b }
  | .User, b => { rs with userFlag := some b }
  | .Operator, b => { rs with operatorFlag := some b }
  | .Auditor, b => { rs with auditorFlag := some b }

/-- Number of roles mapped to `true` in one role map. -/
def trueCount (rs : RoleSet) : Nat :=
  (if rs.adminFlag = some true then 1 else 0)
    + (if rs.userFlag = some true then 1 else 0)
    + (if rs.operatorFlag = some true then 1 else 0)
    + (if rs.auditorFlag = some true then 1 else 0)

end RoleSet

/-- The `UserRoles` portion of instance storage: an association list from
principals to their stored role maps.  A principal occurs at most once in
any state produced by the operations below. -/
abbrev RolesTable : Type := List (Principal × RoleSet)

namespace RolesTable

/-- `env.storage().instance().get(&DataKey::UserRoles(p))`. -/
def get (t : RolesTable) (p : Principal) : Option RoleSet :=
  match t with
  | [] => none
  | (q, rs) :: rest => if q = p then some rs else get rest p

/-- `env.storage().instance().set(&DataKey::UserRoles(p), &rs)`: replace the
entry for `p`, or append one if absent. -/
def set (t : RolesTable) (p : Principal) (rs : RoleSet) : RolesTable :=
  match t with
  | [] => [(p, rs)]
  | (q, old) :: rest => if q = p then (p, rs) :: rest else (q, old) :: set rest p rs

/-- Total number of `(Principal, Role)` pairs flagged `true` across all
stored role maps. -/
def totalTrueFlags (t : RolesTable) : Nat :=
  match t with
  | [] => 0
  | (_, rs) :: rest => rs.trueCount + totalTrueFlags rest

end RolesTable

/-- The whole instance storage of the contract. -/
structure ContractState where
  admin : Option Principal
  userRoles : RolesTable
  totalRoleAssignments : Option Nat
deriving DecidableEq

/-- Storage of a freshly deployed contract: no keys present. -/
def emptyState : ContractState := ⟨none, [], none⟩

namespace AccessControl

/-- `initialize(env, admin)` from `lib.rs`: fail if `DataKey::Admin`
exists, otherwise store the admin, give it a role map with `Admin = true`,
and set the counter to `1`. -/
def init_contract (s : ContractState) (admin : Principal) : Except AccessControlError ContractState :=
  if s.admin.isSome then
    .error .AlreadyInitialized
  else
    .ok { admin := some admin,
          userRoles := s.userRoles.set admin (RoleSet.empty.set .Admin true),
          totalRoleAssignments := some 1 }

/-- `require_admin(env, caller)` from `lib.rs`: load `DataKey::Admin`
(panicking `NotInitialized` if absent) and fail `Unauthorized` unless the
caller equals it. -/
def require_admin (s : ContractState) (caller : Principal) : Except AccessControlError Unit :=
  match s.admin with
  | none => .error .NotInitialized
  | some a => if caller ≠ a then .error .Unauthorized else .ok ()

/-- `grant_role(env, caller, user, role)` from `lib.rs`. -/
def grant_role (s : ContractState) (caller user : Principal) (role : Role) :
    Except AccessControlError ContractState :=
  match require_admin s caller with
  | .error e => .error e
  | .ok _ =>
    let roles := (s.userRoles.get user).getD RoleSet.empty
    if (roles.get role).getD false then
      .error .RoleAlreadyAssigned
    else
      let roles := roles.set role true
      let count := s.totalRoleAssignments.getD 0
      .ok { s with userRoles := s.userRoles.set user roles,
                   totalRoleAssignments := some ((count + 1) % 2 ^ 64) }

/-- `revoke_role(env, caller, user, role)` from `lib.rs`: after the admin
check, the self-admin-revocation guard runs before the is-assigned check;
the counter is only decremented when it is positive. -/
def revoke_role (s : ContractState) (caller user : Principal) (role : Role) :
    Except AccessControlError ContractState :=
  match require_admin s caller with
  | .error e => .error e
  | .ok _ =>
    if caller = user ∧ role = .Admin then
      .error .CannotRevokeSelfAdmin
    else
      let roles := (s.userRoles.get user).getD RoleSet.empty
      if ¬ ((roles.get role).getD false) then
        .error .RoleNotAssigned
      else
        let roles := roles.set role false
        let count := s.totalRoleAssignments.getD 0
        let newCount := if count > 0 then some (count - 1) else s.totalRoleAssignments
        .ok { s with userRoles := s.userRoles.set user roles,
                     totalRoleAssignments := newCount }

/-- `has_role(env, user, role)` from `lib.rs`: a total read with `false` as
the default for a missing role map or a missing flag. -/
def has_role (s : ContractState) (user : Principal) (role : Role) : Bool :=
  (((s.userRoles.get user).getD RoleSet.empty).get role).getD false

/-- `get_user_roles(env, user)` from `lib.rs`. -/
def get_user_roles (s : ContractState) (user : Principal) : RoleSet :=
  (s.userRoles.get user).getD RoleSet.empty

/-- `transfer_admin(env, current_admin, new_admin)` from `lib.rs`: clear the
caller's `Admin` flag, set the new admin's `Admin` flag (reading the table
already updated by the first write), store the new admin.  The counter is
not touched. -/
def transfer_admin (s : ContractState) (current new : Principal) :
    Except AccessControlError ContractState :=
  match require_admin s current with
  | .error e => .error e
  | .ok _ =>
    let currentRoles := ((s.userRoles.get current).getD RoleSet.empty).set .Admin false
    let table1 := s.userRoles.set current currentRoles
    let newRoles := ((table1.get new).getD RoleSet.empty).set .Admin true
    let table2 := table1.set new newRoles
    .ok { s with userRoles := table2, admin := some new }

/-- `get_admin(env)` from `lib.rs`. -/
def get_admin (s : ContractState) : Except AccessControlError Principal :=
  match s.admin with
  | none => .error .NotInitialized
  | some a => .ok a

/-- `get_total_role_assignments(env)` from `lib.rs`. -/
def get_total_role_assignments (s : ContractState) : Nat :=
  s.totalRoleAssignments.getD 0

/-- `require_role(env, caller, role)` from `lib.rs`. -/
def require_role (s : ContractState) (caller : Principal) (role : Role) :
    Except AccessControlError Unit :=
  if ¬ (((s.userRoles.get caller).getD RoleSet.empty).get role).getD false then
    .error .Unauthorized
  else
    .ok ()

/-- `require_admin_or_role(env, caller, role)` from `lib.rs`: note that the
code reads the caller's role map and checks its `Admin` flag; it does not
compare the caller with the stored `DataKey::Admin`. -/
def require_admin_or_role (s : ContractState) (caller : Principal) (role : Role) :
    Except AccessControlError Unit :=
  let roles := (s.userRoles.get caller).getD RoleSet.empty
  let is_admin := (roles.get .Admin).getD false
  let holds := (roles.get role).getD false
  if ¬ is_admin ∧ ¬ holds then
    .error .Unauthorized
  else
    .ok ()

end AccessControl

/-- One invocation of a state-changing entry point. -/
inductive Op where
  | init (admin : Principal)
  | grant (caller user : Principal) (role : Role)
  | revoke (caller user : Principal) (role : Role)
  | transfer (current new : Principal)
deriving DecidableEq, Repr

/-- Run one operation. -/
def applyOp (op : Op) (s : ContractState) : Except AccessControlError ContractState :=
  match op with
  | .init a => AccessControl.init_contract s a
  | .grant c u r => AccessControl.grant_role s c u r
  | .revoke c u r => AccessControl.revoke_role s c u r
  | .transfer c n => AccessControl.transfer_admin s c n

/-- Run a sequence of operations from a state, requiring every one of them
to succeed. -/
def runOps (ops : List Op) (s : ContractState) : Option ContractState :=
  match ops with
  | [] => some s
  | op :: rest =>
    match applyOp op s with
    | .ok s' => runOps rest s'
    | .error _ => none

/-- States reachable from a fresh deployment by successful operations. -/
inductive Reachable : ContractState → Prop where
  | base : Reachable emptyState
  | step {s s' : ContractState} {op : Op} :
      Reachable s → applyOp op s = .ok s' → Reachable s'

/-- Whether an operation, when it succeeds, writes `true` into the flag of
the pair `(p, r)`: a grant of `r` to `p`, or — for the `Admin` role — an
initialization naming `p` or a transfer making `p` the new admin. -/
def Op.setsFlag (op : Op) (p : Principal) (r : Role) : Bool :=
  match op with
  | .init a => decide (a = p) && decide (r = Role.Admin)
  | .grant _ u ro => decide (u = p) && decide (ro = r)
  | .revoke _ _ _ => false
  | .transfer _ n => decide (n = p) && decide (r = Role.Admin)

/-! ### Basic laws of the storage operations -/

theorem RoleSet.get_empty (r : Role) : RoleSet.empty.get r = none := by
  cases r <;> rfl

theorem RoleSet.get_set (rs : RoleSet) (r r' : Role) (b : Bool) :
    (rs.set r b).get r' = if r' = r then some b else rs.get r' := by
  cases r <;> cases r' <;> simp [RoleSet.get, RoleSet.set]

theorem RolesTable.get_set_entry (t : RolesTable) (p q : Principal) (rs : RoleSet) :
    (t.set p rs).get q = if q = p then some rs else t.get q := by
  induction t with
  | nil =>
    simp only [RolesTable.set, RolesTable.get]
    by_cases h : q = p
    · subst h
      simp
    · rw [if_neg (fun hpq : p = q => h hpq.symm), if_neg h]
  | cons hd tl ih =>
    obtain ⟨x, xrs⟩ := hd
    simp only [RolesTable.set]
    by_cases hx : x = p
    · subst hx
      simp only [if_pos rfl, RolesTable.get]
      by_cases hq : x = q
      · rw [if_pos hq, if_pos hq.symm]
      · rw [if_neg hq, if_neg (fun h : q = x => hq h.symm), if_neg hq]
    · simp only [if_neg hx, RolesTable.get, ih]
      by_cases hq : x = q
      · subst hq
        rw [if_pos rfl, if_neg (fun h : x = p => hx h), if_pos rfl]
      · rw [if_neg hq, if_neg hq]

theorem AccessControl.require_admin_spec (s : ContractState) (c : Principal) :
    AccessControl.require_admin s c =
      match s.admin with
      | none => .error .NotInitialized
      | some a => if c = a then .ok () else .error .Unauthorized := by
  cases h : s.admin with
  | none => simp [AccessControl.require_admin, h]
  | some a =>
    by_cases hc : c = a
    · simp [AccessControl.require_admin, h, hc]
    · simp [AccessControl.require_admin, h, hc]

/-- Inversion of a successful `grant_role`: the caller is the stored admin,
the flag was not already true, and the new state differs exactly by the set
flag and the incremented counter. -/
theorem AccessControl.grant_role_ok_iff (s s' : ContractState) (c u : Principal) (r : Role) :
    AccessControl.grant_role s c u r = .ok s' ↔
      s.admin = some c ∧ AccessControl.has_role s u r = false ∧
      s' = { s with
             userRoles := s.userRoles.set u (((s.userRoles.get u).getD RoleSet.empty).set r true),
             totalRoleAssignments := some ((s.totalRoleAssignments.getD 0 + 1) % 2 ^ 64) } := by
  rw [AccessControl.grant_role, AccessControl.require_admin_spec]
  cases h : s.admin with
  | none => simp
  | some a =>
    by_cases hc : c = a
    · subst hc
      by_cases hr : (((s.userRoles.get u).getD RoleSet.empty).get r).getD false = true
      · simp [hr, AccessControl.has_role]
      · simp [hr, AccessControl.has_role, eq_comm]
    · simp only [if_neg hc]
      simp
      intro hac
      exact absurd hac.symm hc

/-- Inversion of a successful `revoke_role`. -/
theorem AccessControl.revoke_role_ok_iff (s s' : ContractState) (c u : Principal) (r : Role) :
    AccessControl.revoke_role s c u r = .ok s' ↔
      s.admin = some c ∧ ¬ (c = u ∧ r = .Admin) ∧ AccessControl.has_role s u r = true ∧
      s' = { s with
             userRoles := s.userRoles.set u (((s.userRoles.get u).getD RoleSet.empty).set r false),
             totalRoleAssignments :=
               if s.totalRoleAssignments.getD 0 > 0 then some (s.totalRoleAssignments.getD 0 - 1)
               else s.totalRoleAssignments } := by
  rw [AccessControl.revoke_role, AccessControl.require_admin_spec]
  cases h : s.admin with
  | none => simp
  | some a =>
    by_cases hc : c = a
    · subst hc
      by_cases hself : c = u ∧ r = Role.Admin
      · simp [hself]
      · by_cases hr : (((s.userRoles.get u).getD RoleSet.empty).get r).getD false = true
        · simp [hr, hself, AccessControl.has_role, eq_comm]
        · simp [hr, hself, AccessControl.has_role]
    · simp only [if_neg hc]
      simp
      intro hac
      exact absurd hac.symm hc

/-- Inversion of a successful `transfer_admin`. -/
theorem AccessControl.transfer_admin_ok_iff (s s' : ContractState) (c n : Principal) :
    AccessControl.transfer_admin s c n = .ok s' ↔
      s.admin = some c ∧
      s' = { s with
             admin := some n,
             userRoles :=
               (s.userRoles.set c (((s.userRoles.get c).getD RoleSet.empty).set .Admin false)).set n
                 ((((s.userRoles.set c
                       (((s.userRoles.get c).getD RoleSet.empty).set .Admin false)).get n).getD
                     RoleSet.empty).set .Admin true) } := by
  rw [AccessControl.transfer_admin, AccessControl.require_admin_spec]
  cases h : s.admin with
  | none => simp
  | some a =>
    by_cases hc : c = a
    · subst hc
      simp [eq_comm]
    · simp only [if_neg hc]
      simp
      intro hac
      exact absurd hac.symm hc

/-- Inversion of a successful `init_contract` (`initialize` in `lib.rs`). -/
theorem AccessControl.init_contract_ok_iff (s s' : ContractState) (a : Principal) :
    AccessControl.init_contract s a = .ok s' ↔
      s.admin = none ∧
      s' = { admin := some a,
             userRoles := s.userRoles.set a (RoleSet.empty.set .Admin true),
             totalRoleAssignments := some 1 } := by
  cases h : s.admin with
  | none => simp [AccessControl.init_contract, h, eq_comm]
  | some b => simp [AccessControl.init_contract, h]

/-- `has_role` read through `get_user_roles`. -/
theorem AccessControl.has_role_eq (s : ContractState) (u : Principal) (r : Role) :
    AccessControl.has_role s u r = ((AccessControl.get_user_roles s u).get r).getD false := rfl

/-- A successful operation that does not write `true` into the flag of
`(p, r)` cannot make `has_role p r` become `true`. -/
theorem has_role_false_preserved (op : Op) (s s' : ContractState) (p : Principal) (r : Role)
    (hop : applyOp op s = .ok s') (hflag : Op.setsFlag op p r = false)
    (h : AccessControl.has_role s p r = false) : AccessControl.has_role s' p r = false := by
  cases op with
  | init a =>
    rw [applyOp, AccessControl.init_contract_ok_iff] at hop
    obtain ⟨-, rfl⟩ := hop
    simp only [Op.setsFlag, Bool.and_eq_false_iff, decide_eq_false_iff_not] at hflag
    by_cases hp : p = a
    · subst hp
      rcases hflag with hflag | hflag
      · exact absurd rfl hflag
      · simp [AccessControl.has_role, RolesTable.get_set_entry, RoleSet.get_set, RoleSet.get_empty,
          hflag]
    · simpa [AccessControl.has_role, RolesTable.get_set_entry, hp] using h
  | grant c u ro =>
    rw [applyOp, AccessControl.grant_role_ok_iff] at hop
    obtain ⟨-, -, rfl⟩ := hop
    simp only [Op.setsFlag, Bool.and_eq_false_iff, decide_eq_false_iff_not] at hflag
    by_cases hp : p = u
    · subst hp
      rcases hflag with hflag | hflag
      · exact absurd rfl hflag
      · have hr : ¬ r = ro := fun h' => hflag h'.symm
        simpa [AccessControl.has_role, RolesTable.get_set_entry, RoleSet.get_set, hr] using h
    · simpa [AccessControl.has_role, RolesTable.get_set_entry, hp] using h
  | revoke c u ro =>
    rw [applyOp, AccessControl.revoke_role_ok_iff] at hop
    obtain ⟨-, -, -, rfl⟩ := hop
    by_cases hp : p = u
    · subst hp
      by_cases hr : r = ro
      · subst hr
        simp [AccessControl.has_role, RolesTable.get_set_entry, RoleSet.get_set]
      · simpa [AccessControl.has_role, RolesTable.get_set_entry, RoleSet.get_set, hr] using h
    · simpa [AccessControl.has_role, RolesTable.get_set_entry, hp] using h
  | transfer c n =>
    rw [applyOp, AccessControl.transfer_admin_ok_iff] at hop
    obtain ⟨-, rfl⟩ := hop
    simp only [Op.setsFlag, Bool.and_eq_false_iff, decide_eq_false_iff_not] at hflag
    by_cases hp : p = n
    · rcases hflag with hflag | hflag
      · exact absurd hp.symm hflag
      · by_cases hnc : n = c
        · simpa [AccessControl.has_role, RolesTable.get_set_entry, RoleSet.get_set,
            RoleSet.get_empty, hp, hnc, hflag, hp.trans hnc] using h
        · simpa [AccessControl.has_role, RolesTable.get_set_entry, RoleSet.get_set,
            RoleSet.get_empty, hp, hnc, hflag] using h
    · by_cases hc : p = c
      · have hcn : ¬ c = n := fun h' => hp (hc.trans h')
        have hnc : ¬ n = c := fun h' => hcn h'.symm
        by_cases hr : r = Role.Admin
        · simp [AccessControl.has_role, RolesTable.get_set_entry, RoleSet.get_set, hp, hc, hcn,
            hnc, hr]
        · simpa [AccessControl.has_role, RolesTable.get_set_entry, RoleSet.get_set, hp, hc, hcn,
            hnc, hr] using h
      · simpa [AccessControl.has_role, RolesTable.get_set_entry, hp, hc] using h

/-- Running a list of operations none of which writes `true` into the flag
of `(p, r)` keeps `has_role p r` false. -/
theorem runOps_has_role_false (ops : List Op) (s s' : ContractState) (p : Principal) (r : Role)
    (hrun : runOps ops s = some s') (hops : ∀ op ∈ ops, Op.setsFlag op p r = false)
    (h : AccessControl.has_role s p r = false) : AccessControl.has_role s' p r = false := by
  induction ops generalizing s with
  | nil =>
    simp only [runOps, Option.some.injEq] at hrun
    exact hrun ▸ h
  | cons op rest ih =>
    simp only [runOps] at hrun
    cases happ : applyOp op s with
    | error e => rw [happ] at hrun; exact absurd hrun (by simp)
    | ok s1 =>
      rw [happ] at hrun
      exact ih s1 hrun (fun o ho => hops o (List.mem_cons_of_mem _ ho))
        (has_role_false_preserved op s s1 p r happ (hops op (List.mem_cons_self _ _)) h)

/-- Every successful operation keeps the stored admin's `Admin` flag set:
the inductive step behind invariant I2. -/
theorem admin_flag_preserved (op : Op) (s s' : ContractState)
    (hop : applyOp op s = .ok s')
    (ih : ∀ a, s.admin = some a → AccessControl.has_role s a .Admin = true) :
    ∀ a, s'.admin = some a → AccessControl.has_role s' a .Admin = true := by
  cases op with
  | init ad =>
    rw [applyOp, AccessControl.init_contract_ok_iff] at hop
    obtain ⟨-, rfl⟩ := hop
    intro a ha
    obtain rfl : ad = a := by simpa using ha
    simp [AccessControl.has_role, RolesTable.get_set_entry, RoleSet.get_set]
  | grant c u ro =>
    rw [applyOp, AccessControl.grant_role_ok_iff] at hop
    obtain ⟨hadm, -, rfl⟩ := hop
    intro a ha
    have hflag := ih a ha
    by_cases hp : a = u
    · subst hp
      by_cases hr : Role.Admin = ro
      · simp [AccessControl.has_role, RolesTable.get_set_entry, RoleSet.get_set, hr]
      · simpa [AccessControl.has_role, RolesTable.get_set_entry, RoleSet.get_set, hr] using hflag
    · simpa [AccessControl.has_role, RolesTable.get_set_entry, hp] using hflag
  | revoke c u ro =>
    rw [applyOp, AccessControl.revoke_role_ok_iff] at hop
    obtain ⟨hadm, hself, -, rfl⟩ := hop
    intro a ha
    have hflag := ih a ha
    have hac : a = c := by
      rw [hadm] at ha
      exact (Option.some.inj ha).symm
    by_cases hp : a = u
    · have hro : ¬ Role.Admin = ro := by
        intro hr
        exact hself ⟨hac ▸ hp, hr.symm⟩
      subst hp
      simpa [AccessControl.has_role, RolesTable.get_set_entry, RoleSet.get_set, hro] using hflag
    · simpa [AccessControl.has_role, RolesTable.get_set_entry, hp] using hflag
  | transfer c n =>
    rw [applyOp, AccessControl.transfer_admin_ok_iff] at hop
    obtain ⟨-, rfl⟩ := hop
    intro a ha
    obtain rfl : n = a := by simpa using ha
    simp [AccessControl.has_role, RolesTable.get_set_entry, RoleSet.get_set]

/-! ### Claims -/

/-- C1: the claim states that after any sequence of successful initialize,
grantRole, revokeRole and transferAdmin operations, `getTotalRoleAssignments`
equals the number of `(Principal, Role)` pairs flagged `true` across all
RoleSets.  The code violates this: after `initialize(0)`,
`grant_role(0, 1, Admin)`, `transfer_admin(0, 1)` — all successful — the
stored counter is `2` while exactly one flag is `true` (principal `1`'s
`Admin`), because `transfer_admin` sets the new admin's already-true flag
without touching the counter.  This contradicts invariant I3 of the spec and
the intent documented on `DataKey::TotalRoleAssignments`. -/
theorem C1_counter_drift :
    (runOps [Op.init 0, Op.grant 0 1 .Admin, Op.transfer 0 1] emptyState).map
        (fun s =>
          (AccessControl.get_total_role_assignments s, RolesTable.totalTrueFlags s.userRoles))
      = some (2, 1) := by
  decide

/-- C2: in every state reachable from a fresh deployment by successful
operations, the principal stored as admin has the `Admin` flag `true` in its
own RoleSet (invariant I2). -/
theorem C2_admin_has_admin_flag (s : ContractState) (hr : Reachable s) :
    ∀ a, s.admin = some a → AccessControl.has_role s a .Admin = true := by
  induction hr with
  | base =>
    intro a ha
    simp [emptyState] at ha
  | step h1 h2 ih => exact admin_flag_preserved _ _ _ h2 ih

theorem C2_witness :
    Reachable (⟨some 0, [(0, ⟨some true, none, none, none⟩)], some 1⟩ : ContractState) ∧
    AccessControl.has_role ⟨some 0, [(0, ⟨some true, none, none, none⟩)], some 1⟩ 0 .Admin
      = true := by
  have hstep : applyOp (Op.init 0) emptyState =
      .ok ⟨some 0, [(0, ⟨some true, none, none, none⟩)], some 1⟩ := by decide
  have h : Reachable (⟨some 0, [(0, ⟨some true, none, none, none⟩)], some 1⟩ : ContractState) :=
    Reachable.step Reachable.base hstep
  exact ⟨h, C2_admin_has_admin_flag _ h 0 rfl⟩

/-- C3 counterexample: the claim quantifies over all principals `A`, `B`
with `A` the current admin and asserts `hasRole(A, Admin) = false` after
`transferAdmin(A, B)`.  Taking `A = B = 0` in the state produced by
`initialize(0)`, the transfer succeeds but `hasRole(0, Admin)` is `true`
afterwards, so the claim as stated is false. -/
theorem C3_counterexample :
    (runOps [Op.init 0, Op.transfer 0 0] emptyState).map
        (fun t => (t.admin, AccessControl.has_role t 0 .Admin)) = some (some 0, true) := by
  decide

/-- C3 (amended: for distinct principals `A ≠ B`): when the stored admin is
`A`, `transfer_admin A B` succeeds, afterwards `get_admin` returns `B`,
`B` holds `Admin`, `A` no longer holds `Admin`, and the assignment counter
is unchanged. -/
theorem C3_transfer_admin_spec (s : ContractState) (A B : Principal)
    (hA : s.admin = some A) (hAB : A ≠ B) :
    ∃ s', AccessControl.transfer_admin s A B = .ok s' ∧
      AccessControl.get_admin s' = .ok B ∧
      AccessControl.has_role s' B .Admin = true ∧
      AccessControl.has_role s' A .Admin = false ∧
      AccessControl.get_total_role_assignments s'
        = AccessControl.get_total_role_assignments s := by
  refine ⟨_, (AccessControl.transfer_admin_ok_iff s _ A B).mpr ⟨hA, rfl⟩, ?_, ?_, ?_, rfl⟩
  · simp [AccessControl.get_admin]
  · simp [AccessControl.has_role, RolesTable.get_set_entry, RoleSet.get_set]
  · simp [AccessControl.has_role, RolesTable.get_set_entry, RoleSet.get_set, hAB]

theorem C3_witness :
    (⟨some 0, [(0, ⟨some true, none, none, none⟩)], some 1⟩ : ContractState).admin = some 0 ∧
    (0 : Principal) ≠ 1 ∧
    (∃ s', AccessControl.transfer_admin
        ⟨some 0, [(0, ⟨some true, none, none, none⟩)], some 1⟩ 0 1 = .ok s' ∧
      AccessControl.get_admin s' = .ok 1 ∧
      AccessControl.has_role s' 1 .Admin = true ∧
      AccessControl.has_role s' 0 .Admin = false ∧
      AccessControl.get_total_role_assignments s'
        = AccessControl.get_total_role_assignments
            ⟨some 0, [(0, ⟨some true, none, none, none⟩)], some 1⟩) :=
  ⟨rfl, by decide, C3_transfer_admin_spec _ 0 1 rfl (by decide)⟩

/-- C4: when the stored admin calls `revoke_role` on itself with role
`Admin`, the call fails with `CannotRevokeSelfAdmin` in every state —
regardless of the current value of the caller's `Admin` flag — because the
self-lockout check runs before the role-assigned check. -/
theorem C4_self_admin_revoke (s : ContractState) (a : Principal) (ha : s.admin = some a) :
    AccessControl.revoke_role s a a .Admin = .error .CannotRevokeSelfAdmin := by
  rw [AccessControl.revoke_role, AccessControl.require_admin_spec, ha]
  simp

theorem C4_witness :
    (⟨some 0, [], some 1⟩ : ContractState).admin = some 0 ∧
    AccessControl.has_role ⟨some 0, [], some 1⟩ 0 .Admin = false ∧
    AccessControl.revoke_role ⟨some 0, [], some 1⟩ 0 0 .Admin
      = .error .CannotRevokeSelfAdmin :=
  ⟨rfl, by decide, C4_self_admin_revoke _ 0 rfl⟩

/-- C5: with the stored admin as caller, granting a role whose flag is
already `true` fails with `RoleAlreadyAssigned`, and revoking a role whose
flag is `false` (self-admin case excluded) fails with `RoleNotAssigned`.
In the embedding an error result commits no storage writes, so flags and
counter are unchanged on both failure paths. -/
theorem C5_redundant_transition_errors (s : ContractState) (c u : Principal) (r : Role)
    (hc : s.admin = some c) :
    (AccessControl.has_role s u r = true →
      AccessControl.grant_role s c u r = .error .RoleAlreadyAssigned) ∧
    (AccessControl.has_role s u r = false → ¬ (c = u ∧ r = .Admin) →
      AccessControl.revoke_role s c u r = .error .RoleNotAssigned) := by
  constructor
  · intro hr
    rw [AccessControl.grant_role, AccessControl.require_admin_spec, hc]
    rw [AccessControl.has_role] at hr
    simp [hr]
  · intro hr hself
    rw [AccessControl.revoke_role, AccessControl.require_admin_spec, hc]
    rw [AccessControl.has_role] at hr
    simp [hr, hself]

theorem C5_witness :
    (⟨some 0, [(1, ⟨none, some true, none, none⟩)], some 2⟩ : ContractState).admin = some 0 ∧
    AccessControl.has_role ⟨some 0, [(1, ⟨none, some true, none, none⟩)], some 2⟩ 1 .User
      = true ∧
    AccessControl.grant_role ⟨some 0, [(1, ⟨none, some true, none, none⟩)], some 2⟩ 0 1 .User
      = .error .RoleAlreadyAssigned ∧
    AccessControl.has_role ⟨some 0, [(1, ⟨none, some true, none, none⟩)], some 2⟩ 1 .Operator
      = false ∧
    AccessControl.revoke_role ⟨some 0, [(1, ⟨none, some true, none, none⟩)], some 2⟩ 0 1
        .Operator = .error .RoleNotAssigned := by
  refine ⟨rfl, by decide, ?_, by decide, ?_⟩
  · exact (C5_redundant_transition_errors _ 0 1 .User rfl).1 (by decide)
  · exact (C5_redundant_transition_errors _ 0 1 .Operator rfl).2 (by decide) (by decide)

/-- C6: in any state with a stored admin, a caller different from the admin
gets `Unauthorized` from `grant_role`, `revoke_role` and `transfer_admin`,
for every target and role; the error result commits no storage writes. -/
theorem C6_non_admin_unauthorized (s : ContractState) (a c u : Principal) (r : Role)
    (ha : s.admin = some a) (hc : c ≠ a) :
    AccessControl.grant_role s c u r = .error .Unauthorized ∧
    AccessControl.revoke_role s c u r = .error .Unauthorized ∧
    AccessControl.transfer_admin s c u = .error .Unauthorized := by
  refine ⟨?_, ?_, ?_⟩
  · rw [AccessControl.grant_role, AccessControl.require_admin_spec, ha]
    simp [hc]
  · rw [AccessControl.revoke_role, AccessControl.require_admin_spec, ha]
    simp [hc]
  · rw [AccessControl.transfer_admin, AccessControl.require_admin_spec, ha]
    simp [hc]

theorem C6_witness :
    (⟨some 0, [(0, ⟨some true, none, none, none⟩)], some 1⟩ : ContractState).admin = some 0 ∧
    (1 : Principal) ≠ 0 ∧
    AccessControl.grant_role ⟨some 0, [(0, ⟨some true, none, none, none⟩)], some 1⟩ 1 2 .User
      = .error .Unauthorized ∧
    AccessControl.revoke_role ⟨some 0, [(0, ⟨some true, none, none, none⟩)], some 1⟩ 1 2 .User
      = .error .Unauthorized ∧
    AccessControl.transfer_admin ⟨some 0, [(0, ⟨some true, none, none, none⟩)], some 1⟩ 1 2
      = .error .Unauthorized := by
  have h := C6_non_admin_unauthorized
    ⟨some 0, [(0, ⟨some true, none, none, none⟩)], some 1⟩ 0 1 2 .User rfl (by decide)
  exact ⟨rfl, by decide, h.1, h.2.1, h.2.2⟩

/-- C7 counterexample: the claim says `require_admin_or_role` fails iff the
caller is neither the stored admin nor a holder of the role.  In the
reachable state after `initialize(0)` and `grant_role(0, 1, Admin)`,
principal `1` is not the stored admin and does not hold `User`, yet
`require_admin_or_role 1 User` succeeds: the code consults the caller's
`Admin` flag, not the stored admin record. -/
theorem C7_counterexample :
    runOps [Op.init 0, Op.grant 0 1 .Admin] emptyState =
      some ⟨some 0, [(0, ⟨some true, none, none, none⟩),
                     (1, ⟨some true, none, none, none⟩)], some 2⟩ ∧
    (⟨some 0, [(0, ⟨some true, none, none, none⟩),
               (1, ⟨some true, none, none, none⟩)], some 2⟩ : ContractState).admin = some 0 ∧
    AccessControl.has_role ⟨some 0, [(0, ⟨some true, none, none, none⟩),
      (1, ⟨some true, none, none, none⟩)], some 2⟩ 1 .User = false ∧
    AccessControl.require_admin_or_role ⟨some 0, [(0, ⟨some true, none, none, none⟩),
      (1, ⟨some true, none, none, none⟩)], some 2⟩ 1 .User = .ok () := by
  decide

/-- C7 (amended): `require_admin_or_role caller role` fails with
`Unauthorized` iff the caller's RoleSet has neither `Admin = true` nor
`role = true`, and succeeds iff the caller holds the `Admin` flag or the
role — the admin test is on the caller's `Admin` flag, not on the stored
admin record. -/
theorem C7_require_admin_or_role_spec (s : ContractState) (c : Principal) (r : Role) :
    (AccessControl.require_admin_or_role s c r = .error .Unauthorized ↔
      AccessControl.has_role s c .Admin = false ∧ AccessControl.has_role s c r = false) ∧
    (AccessControl.require_admin_or_role s c r = .ok () ↔
      AccessControl.has_role s c .Admin = true ∨ AccessControl.has_role s c r = true) := by
  cases hA : (((s.userRoles.get c).getD RoleSet.empty).get .Admin).getD false <;>
    cases hR : (((s.userRoles.get c).getD RoleSet.empty).get r).getD false <;>
      simp [AccessControl.require_admin_or_role, AccessControl.has_role, hA, hR]

/-- C8: `has_role` is a total read (it returns a boolean in every state and
never errors): it returns `false` when the target has no stored RoleSet or
the RoleSet has no flag for the role; it is `false` in any state reached
from a fresh deployment by successful operations none of which writes `true`
into that `(principal, role)` flag (grant of that role, or — for `Admin` —
an initialization or transfer naming the principal); it is `true`
immediately after a successful grant and `false` immediately after a
successful revoke of that pair. -/
theorem C8_has_role_lifecycle :
    (∀ (s : ContractState) (u : Principal) (r : Role),
      s.userRoles.get u = none → AccessControl.has_role s u r = false) ∧
    (∀ (s : ContractState) (u : Principal) (rs : RoleSet) (r : Role),
      s.userRoles.get u = some rs → rs.get r = none → AccessControl.has_role s u r = false) ∧
    (∀ (ops : List Op) (s : ContractState) (p : Principal) (r : Role),
      runOps ops emptyState = some s → (∀ op ∈ ops, Op.setsFlag op p r = false) →
      AccessControl.has_role s p r = false) ∧
    (∀ (s s' : ContractState) (c p : Principal) (r : Role),
      AccessControl.grant_role s c p r = .ok s' → AccessControl.has_role s' p r = true) ∧
    (∀ (s s' : ContractState) (c p : Principal) (r : Role),
      AccessControl.revoke_role s c p r = .ok s' → AccessControl.has_role s' p r = false) := by
  refine ⟨?_, ?_, ?_, ?_, ?_⟩
  · intro s u r h
    simp [AccessControl.has_role, h, RoleSet.get_empty]
  · intro s u rs r h hr
    simp [AccessControl.has_role, h, hr]
  · intro ops s p r hrun hops
    refine runOps_has_role_false ops emptyState s p r hrun hops ?_
    simp [AccessControl.has_role, emptyState, RolesTable.get, RoleSet.get_empty]
  · intro s s' c p r h
    rw [AccessControl.grant_role_ok_iff] at h
    obtain ⟨-, -, rfl⟩ := h
    simp [AccessControl.has_role, RolesTable.get_set_entry, RoleSet.get_set]
  · intro s s' c p r h
    rw [AccessControl.revoke_role_ok_iff] at h
    obtain ⟨-, -, -, rfl⟩ := h
    simp [AccessControl.has_role, RolesTable.get_set_entry, RoleSet.get_set]

theorem C8_witness :
    AccessControl.has_role emptyState 0 .User = false ∧
    AccessControl.has_role ⟨some 0, [(0, ⟨some true, none, none, none⟩),
      (1, ⟨none, some true, none, none⟩)], some 2⟩ 5 .Operator = false ∧
    AccessControl.has_role ⟨some 0, [(0, ⟨some true, none, none, none⟩),
      (1, ⟨none, some true, none, none⟩)], some 2⟩ 1 .User = true ∧
    AccessControl.has_role ⟨some 0, [(0, ⟨some true, none, none, none⟩),
      (1, ⟨none, some false, none, none⟩)], some 1⟩ 1 .User = false := by
  refine ⟨?_, ?_, ?_, ?_⟩
  · exact C8_has_role_lifecycle.1 emptyState 0 .User rfl
  · exact C8_has_role_lifecycle.2.2.1 [Op.init 0, Op.grant 0 1 .User] _ 5 .Operator
      (by decide) (by decide)
  · exact C8_has_role_lifecycle.2.2.2.1
      ⟨some 0, [(0, ⟨some true, none, none, none⟩)], some 1⟩ _ 0 1 .User (by decide)
  · exact C8_has_role_lifecycle.2.2.2.2
      ⟨some 0, [(0, ⟨some true, none, none, none⟩),
        (1, ⟨none, some true, none, none⟩)], some 2⟩ _ 0 1 .User (by decide)

/-- C9: when the stored admin `a` transfers the admin role to itself, the
call succeeds, the admin record still names `a`, `a`'s `Admin` flag is
`true` (the second write overwrites the first), and the assignment counter
is unchanged. -/
theorem C9_transfer_to_self (s : ContractState) (a : Principal) (ha : s.admin = some a) :
    ∃ s', AccessControl.transfer_admin s a a = .ok s' ∧
      AccessControl.get_admin s' = .ok a ∧
      AccessControl.has_role s' a .Admin = true ∧
      AccessControl.get_total_role_assignments s'
        = AccessControl.get_total_role_assignments s := by
  refine ⟨_, (AccessControl.transfer_admin_ok_iff s _ a a).mpr ⟨ha, rfl⟩, ?_, ?_, rfl⟩
  · simp [AccessControl.get_admin]
  · simp [AccessControl.has_role, RolesTable.get_set_entry, RoleSet.get_set]

theorem C9_witness :
    ∃ s', AccessControl.transfer_admin
        ⟨some 0, [(0, ⟨some true, none, none, none⟩)], some 1⟩ 0 0 = .ok s' ∧
      AccessControl.get_admin s' = .ok 0 ∧
      AccessControl.has_role s' 0 .Admin = true ∧
      AccessControl.get_total_role_assignments s'
        = AccessControl.get_total_role_assignments
            ⟨some 0, [(0, ⟨some true, none, none, none⟩)], some 1⟩ :=
  C9_transfer_to_self _ 0 rfl

/-- C10: a successful `grant_role` or `revoke_role` leaves the stored admin
record unchanged and, for every principal other than the target, leaves the
observable RoleSet (`get_user_roles`) and every `has_role` answer unchanged;
only the target's RoleSet and the counter may change. -/
theorem C10_frame_condition (s s' : ContractState) (c t : Principal) (r : Role)
    (h : AccessControl.grant_role s c t r = .ok s' ∨
         AccessControl.revoke_role s c t r = .ok s') :
    s'.admin = s.admin ∧
    ∀ q, q ≠ t → AccessControl.get_user_roles s' q = AccessControl.get_user_roles s q ∧
      ∀ r', AccessControl.has_role s' q r' = AccessControl.has_role s q r' := by
  rcases h with h | h
  · rw [AccessControl.grant_role_ok_iff] at h
    obtain ⟨-, -, rfl⟩ := h
    refine ⟨rfl, fun q hq => ⟨?_, fun r' => ?_⟩⟩
    · simp [AccessControl.get_user_roles, RolesTable.get_set_entry, hq]
    · simp [AccessControl.has_role, RolesTable.get_set_entry, hq]
  · rw [AccessControl.revoke_role_ok_iff] at h
    obtain ⟨-, -, -, rfl⟩ := h
    refine ⟨rfl, fun q hq => ⟨?_, fun r' => ?_⟩⟩
    · simp [AccessControl.get_user_roles, RolesTable.get_set_entry, hq]
    · simp [AccessControl.has_role, RolesTable.get_set_entry, hq]

theorem C10_witness :
    (⟨some 0, [(0, ⟨some true, none, none, none⟩),
       (1, ⟨none, some true, none, none⟩)], some 2⟩ : ContractState).admin
      = (⟨some 0, [(0, ⟨some true, none, none, none⟩)], some 1⟩ : ContractState).admin ∧
    AccessControl.get_user_roles ⟨some 0, [(0, ⟨some true, none, none, none⟩),
        (1, ⟨none, some true, none, none⟩)], some 2⟩ 7
      = AccessControl.get_user_roles
          ⟨some 0, [(0, ⟨some true, none, none, none⟩)], some 1⟩ 7 ∧
    AccessControl.has_role ⟨some 0, [(0, ⟨some true, none, none, none⟩),
        (1, ⟨none, some true, none, none⟩)], some 2⟩ 0 .Admin
      = AccessControl.has_role
          ⟨some 0, [(0, ⟨some true, none, none, none⟩)], some 1⟩ 0 .Admin := by
  have h := C10_frame_condition
    ⟨some 0, [(0, ⟨some true, none, none, none⟩)], some 1⟩
    ⟨some 0, [(0, ⟨some true, none, none, none⟩),
      (1, ⟨none, some true, none, none⟩)], some 2⟩ 0 1 .User (Or.inl (by decide))
  exact ⟨h.1, (h.2 7 (by decide)).1, ((h.2 0 (by decide)).2 .Admin)⟩
